import Mathlib

/-!
Verification of the serverless OIDC auth helpers in `src/functions/AuthUtils.js`.

The development shallowly embeds the data model and the three request
handlers (`handleLogin`, `handleCallback`, `handleLogout`) together with the
pure cookie/state/JWT builders they call.  External collaborators (the
openid-client, the JWT signer) are modelled at their interfaces as function
parameters; runtime primitives that the code relies on for its observable
behaviour (`JSON.stringify`/`JSON.parse` on flat string-valued objects,
`Buffer` base64 and UTF-8 conversion, `cookie.serialize`/`cookie.parse`,
`encodeURIComponent`) are modelled concretely.
-/

namespace CrossidAuth

/-! ### JSON string fragment

`JSON.stringify` / `JSON.parse` as used by the code, restricted to flat
objects with exactly two string-valued fields (the only shapes the code
ever serializes: `{route, nonce}` and `{nonce, state}`). String escaping
follows `JSON.stringify`: `"` and `\` get a backslash escape, the control
characters BS/TAB/LF/FF/CR get their short escapes, other control
characters get a `\u00XX` escape, and everything else is emitted verbatim.
-/

/-- Lower-case hexadecimal digit for a value below 16. -/
def hexDigitChar (n : Nat) : Char :=
  if n < 10 then Char.ofNat (48 + n) else Char.ofNat (87 + n)

/-- Value of a hexadecimal digit character (either case), `none` otherwise. -/
def hexVal (c : Char) : Option Nat :=
  if 48 ≤ c.toNat ∧ c.toNat ≤ 57 then some (c.toNat - 48)
  else if 97 ≤ c.toNat ∧ c.toNat ≤ 102 then some (c.toNat - 87)
  else if 65 ≤ c.toNat ∧ c.toNat ≤ 70 then some (c.toNat - 55)
  else none

/-- JSON escaping of one character, as done by `JSON.stringify`. -/
def escapeChar (c : Char) : List Char :=
  if c = '"' then ['\\', '"']
  else if c = '\\' then ['\\', '\\']
  else if c.toNat = 8 then ['\\', 'b']
  else if c.toNat = 9 then ['\\', 't']
  else if c.toNat = 10 then ['\\', 'n']
  else if c.toNat = 12 then ['\\', 'f']
  else if c.toNat = 13 then ['\\', 'r']
  else if c.toNat < 32 then
    ['\\', 'u', '0', '0', hexDigitChar (c.toNat / 16), hexDigitChar (c.toNat % 16)]
  else [c]

/-- JSON escaping of a character list. -/
def escapeString : List Char → List Char
  | [] => []
  | c :: s => escapeChar c ++ escapeString s

/-- Prepend a character to the string component of a parser result. -/
def consFst (c : Char) : Option (List Char × List Char) → Option (List Char × List Char)
  | none => none
  | some (s, r) => some (c :: s, r)

/-- Parse the body of a JSON string (after the opening quote), returning the
decoded content and the input remaining after the closing quote. -/
def parseStringBody : List Char → Option (List Char × List Char)
  | [] => none
  | c :: rest =>
    if c = '"' then some ([], rest)
    else if c = '\\' then
      match rest with
      | [] => none
      | e :: r =>
        if e = '"' then consFst '"' (parseStringBody r)
        else if e = '\\' then consFst '\\' (parseStringBody r)
        else if e = '/' then consFst '/' (parseStringBody r)
        else if e = 'b' then consFst (Char.ofNat 8) (parseStringBody r)
        else if e = 't' then consFst (Char.ofNat 9) (parseStringBody r)
        else if e = 'n' then consFst (Char.ofNat 10) (parseStringBody r)
        else if e = 'f' then consFst (Char.ofNat 12) (parseStringBody r)
        else if e = 'r' then consFst (Char.ofNat 13) (parseStringBody r)
        else if e = 'u' then
          match r with
          | a1 :: a2 :: a3 :: a4 :: r2 =>
            match hexVal a1, hexVal a2, hexVal a3, hexVal a4 with
            | some w, some x, some y, some z =>
              consFst (Char.ofNat (((w * 16 + x) * 16 + y) * 16 + z)) (parseStringBody r2)
            | _, _, _, _ => none
          | _ => none
        else none
    else if c.toNat < 32 then none
    else consFst c (parseStringBody rest)
  termination_by structural l => l

theorem hexVal_hexDigitChar : ∀ n < 16, hexVal (hexDigitChar n) = some n := by decide

theorem char_ofNat_toNat (c : Char) : Char.ofNat c.toNat = c := by
  rcases c with ⟨⟨⟨n, hlt⟩⟩, hvalid⟩
  show Char.ofNat n = _
  have hv : n.isValidChar := hvalid
  rw [Char.ofNat, dif_pos hv]
  rfl

/-- Parsing inverts escaping one character at a time. -/
theorem parseStringBody_escapeChar (c : Char) (t : List Char) :
    parseStringBody (escapeChar c ++ t) = consFst c (parseStringBody t) := by
  by_cases h1 : c = '"'
  · subst h1
    have he : escapeChar '"' = ['\\', '"'] := by decide
    rw [he, List.cons_append, List.cons_append, List.nil_append]
    conv_lhs => rw [parseStringBody.eq_def]
    simp
  by_cases h2 : c = '\\'
  · subst h2
    have he : escapeChar '\\' = ['\\', '\\'] := by decide
    rw [he, List.cons_append, List.cons_append, List.nil_append]
    conv_lhs => rw [parseStringBody.eq_def]
    simp
  by_cases h3 : c.toNat = 8
  · have hc : c = Char.ofNat 8 := by rw [← h3, char_ofNat_toNat]
    subst hc
    have he : escapeChar (Char.ofNat 8) = ['\\', 'b'] := by decide
    rw [he, List.cons_append, List.cons_append, List.nil_append]
    conv_lhs => rw [parseStringBody.eq_def]
    simp
  by_cases h4 : c.toNat = 9
  · have hc : c = Char.ofNat 9 := by rw [← h4, char_ofNat_toNat]
    subst hc
    have he : escapeChar (Char.ofNat 9) = ['\\', 't'] := by decide
    rw [he, List.cons_append, List.cons_append, List.nil_append]
    conv_lhs => rw [parseStringBody.eq_def]
    simp
  by_cases h5 : c.toNat = 10
  · have hc : c = Char.ofNat 10 := by rw [← h5, char_ofNat_toNat]
    subst hc
    have he : escapeChar (Char.ofNat 10) = ['\\', 'n'] := by decide
    rw [he, List.cons_append, List.cons_append, List.nil_append]
    conv_lhs => rw [parseStringBody.eq_def]
    simp
  by_cases h6 : c.toNat = 12
  · have hc : c = Char.ofNat 12 := by rw [← h6, char_ofNat_toNat]
    subst hc
    have he : escapeChar (Char.ofNat 12) = ['\\', 'f'] := by decide
    rw [he, List.cons_append, List.cons_append, List.nil_append]
    conv_lhs => rw [parseStringBody.eq_def]
    simp
  by_cases h7 : c.toNat = 13
  · have hc : c = Char.ofNat 13 := by rw [← h7, char_ofNat_toNat]
    subst hc
    have he : escapeChar (Char.ofNat 13) = ['\\', 'r'] := by decide
    rw [he, List.cons_append, List.cons_append, List.nil_append]
    conv_lhs => rw [parseStringBody.eq_def]
    simp
  by_cases h8 : c.toNat < 32
  · rw [escapeChar, if_neg h1, if_neg h2, if_neg h3, if_neg h4, if_neg h5, if_neg h6, if_neg h7,
      if_pos h8]
    have hda : c.toNat / 16 < 16 := by omega
    have hdb : c.toNat % 16 < 16 := by omega
    have hv0 : hexVal '0' = some 0 := by decide
    simp only [List.cons_append, List.nil_append]
    conv_lhs => rw [parseStringBody.eq_def]
    simp only [hv0, hexVal_hexDigitChar _ hda, hexVal_hexDigitChar _ hdb]
    have harith : Char.ofNat (c.toNat / 16 * 16 + c.toNat % 16) = c := by
      have hx : c.toNat / 16 * 16 + c.toNat % 16 = c.toNat := by omega
      rw [hx, char_ofNat_toNat]
    simp [harith]
  · rw [escapeChar, if_neg h1, if_neg h2, if_neg h3, if_neg h4, if_neg h5, if_neg h6, if_neg h7,
      if_neg h8]
    simp only [List.cons_append, List.nil_append]
    conv_lhs => rw [parseStringBody.eq_def]
    simp only [if_neg h1, if_neg h2, if_neg h8]

/-- Parsing inverts escaping: the parser recovers the original string and
hands back the input after the closing quote untouched. -/
theorem parseStringBody_escapeString (s rest : List Char) :
    parseStringBody (escapeString s ++ '"' :: rest) = some (s, rest) := by
  induction s with
  | nil =>
    rw [escapeString, List.nil_append]
    conv_lhs => rw [parseStringBody.eq_def]
    simp
  | cons c s ih =>
    rw [escapeString, List.append_assoc, parseStringBody_escapeChar, ih, consFst]

/-- Serialization of a flat two-field object with string values, in field
order, as `JSON.stringify` produces for an object literal with two
string-valued properties. -/
def jsonStringifyObj2 (k1 v1 k2 v2 : String) : List Char :=
  '{' :: '"' :: (escapeString k1.data ++ '"' :: ':' :: '"' ::
    (escapeString v1.data ++ '"' :: ',' :: '"' ::
      (escapeString k2.data ++ '"' :: ':' :: '"' ::
        (escapeString v2.data ++ ['"', '}']))))

/-- Parse of a flat two-field JSON object with string values (the fragment
of `JSON.parse` exercised by the code, whose own serializations all have
this canonical shape), returning the key/value pairs in order. -/
def jsonParseObj2 (l : List Char) : Option (List (String × String)) :=
  match l with
  | '{' :: '"' :: r0 =>
    match parseStringBody r0 with
    | some (k1, ':' :: '"' :: r1) =>
      match parseStringBody r1 with
      | some (v1, ',' :: '"' :: r2) =>
        match parseStringBody r2 with
        | some (k2, ':' :: '"' :: r3) =>
          match parseStringBody r3 with
          | some (v2, ['}']) =>
            some [(String.mk k1, String.mk v1), (String.mk k2, String.mk v2)]
          | _ => none
        | _ => none
      | _ => none
    | _ => none
  | _ => none

theorem string_mk_data (s : String) : String.mk s.data = s := rfl

/-- Parsing inverts serialization for two-field string objects. -/
theorem jsonParseObj2_stringify (k1 v1 k2 v2 : String) :
    jsonParseObj2 (jsonStringifyObj2 k1 v1 k2 v2) = some [(k1, v1), (k2, v2)] := by
  rw [jsonStringifyObj2]
  simp only [jsonParseObj2, parseStringBody_escapeString, string_mk_data]

/-! ### UTF-8

Byte-level model of the UTF-8 conversion performed by `Buffer.from(str)` /
`buf.toString('utf8')`. Bytes are `Nat` below 256; the encoder is the
standard arithmetic formulation of UTF-8 over unicode scalar values. -/

/-- UTF-8 encoding of a single scalar value. -/
def utf8EncodeChar (c : Char) : List Nat :=
  let n := c.toNat
  if n < 128 then [n]
  else if n < 2048 then [192 + n / 64, 128 + n % 64]
  else if n < 65536 then [224 + n / 4096, 128 + n / 64 % 64, 128 + n % 64]
  else [240 + n / 262144, 128 + n / 4096 % 64, 128 + n / 64 % 64, 128 + n % 64]

/-- UTF-8 encoding of a character list. -/
def utf8Encode : List Char → List Nat
  | [] => []
  | c :: s => utf8EncodeChar c ++ utf8Encode s

/-- Prepend a character to an optional decoded tail. -/
def consChar (c : Char) : Option (List Char) → Option (List Char)
  | none => none
  | some s => some (c :: s)

/-- Whether a byte is a UTF-8 continuation byte. -/
def isCont (b : Nat) : Prop := 128 ≤ b ∧ b < 192

instance (b : Nat) : Decidable (isCont b) := by unfold isCont; infer_instance

/-- UTF-8 decoding as a byte-at-a-time state machine: `acc` is the scalar
value under construction and `k` the number of continuation bytes still
expected. -/
def utf8DecodeAux : List Nat → Nat → Nat → Option (List Char)
  | [], _, k => if k = 0 then some [] else none
  | b :: r, acc, k =>
    if k = 0 then
      if b < 128 then consChar (Char.ofNat b) (utf8DecodeAux r 0 0)
      else if b < 192 then none
      else if b < 224 then utf8DecodeAux r (b - 192) 1
      else if b < 240 then utf8DecodeAux r (b - 224) 2
      else if b < 248 then utf8DecodeAux r (b - 240) 3
      else none
    else
      if isCont b then
        if k = 1 then consChar (Char.ofNat (acc * 64 + (b - 128))) (utf8DecodeAux r 0 0)
        else utf8DecodeAux r (acc * 64 + (b - 128)) (k - 1)
      else none
  termination_by structural l => l

/-- UTF-8 decoding of a byte list. -/
def utf8Decode (l : List Nat) : Option (List Char) := utf8DecodeAux l 0 0

theorem char_toNat_lt (c : Char) : c.toNat < 1114112 := by
  rcases c with ⟨⟨⟨n, hlt⟩⟩, hvalid⟩
  have hv : n < 55296 ∨ (57343 < n ∧ n < 1114112) := hvalid
  show n < 1114112
  omega

/-- Every byte the UTF-8 encoder emits is below 256. -/
theorem utf8EncodeChar_lt (c : Char) : ∀ b ∈ utf8EncodeChar c, b < 256 := by
  have hb := char_toNat_lt c
  rw [utf8EncodeChar]
  by_cases h1 : c.toNat < 128
  · rw [if_pos h1]; intro b hbm; simp at hbm; omega
  rw [if_neg h1]
  by_cases h2 : c.toNat < 2048
  · rw [if_pos h2]; intro b hbm; simp at hbm
    have d1 : c.toNat / 64 < 32 := by omega
    have d2 : c.toNat % 64 < 64 := by omega
    omega
  rw [if_neg h2]
  by_cases h3 : c.toNat < 65536
  · rw [if_pos h3]; intro b hbm; simp at hbm
    have d1 : c.toNat / 4096 < 16 := by omega
    have d2 : c.toNat / 64 % 64 < 64 := by omega
    have d3 : c.toNat % 64 < 64 := by omega
    omega
  · rw [if_neg h3]; intro b hbm; simp at hbm
    have d1 : c.toNat / 262144 < 5 := by omega
    have d2 : c.toNat / 4096 % 64 < 64 := by omega
    have d3 : c.toNat / 64 % 64 < 64 := by omega
    have d4 : c.toNat % 64 < 64 := by omega
    omega

theorem utf8Encode_lt (s : List Char) : ∀ b ∈ utf8Encode s, b < 256 := by
  induction s with
  | nil => intro b hbm; simp [utf8Encode] at hbm
  | cons c s ih =>
    intro b hbm
    rw [utf8Encode] at hbm
    rcases List.mem_append.mp hbm with h | h
    · exact utf8EncodeChar_lt c b h
    · exact ih b h

/-- Decoding inverts encoding one character at a time. -/
theorem utf8Decode_encodeChar (c : Char) (t : List Nat) :
    utf8DecodeAux (utf8EncodeChar c ++ t) 0 0 = consChar c (utf8DecodeAux t 0 0) := by
  have hb := char_toNat_lt c
  rw [utf8EncodeChar]
  by_cases h1 : c.toNat < 128
  · rw [if_pos h1]
    simp only [List.cons_append, List.nil_append]
    rw [utf8DecodeAux]
    rw [if_pos rfl, if_pos h1, char_ofNat_toNat]
  rw [if_neg h1]
  by_cases h2 : c.toNat < 2048
  · rw [if_pos h2]
    simp only [List.cons_append, List.nil_append]
    rw [utf8DecodeAux]
    have hA : ¬(192 + c.toNat / 64 < 128) := by omega
    have hB : ¬(192 + c.toNat / 64 < 192) := by omega
    have hC : 192 + c.toNat / 64 < 224 := by omega
    rw [if_pos rfl, if_neg hA, if_neg hB, if_pos hC]
    rw [utf8DecodeAux]
    have hk : (1 : Nat) ≠ 0 := by omega
    have hcont : isCont (128 + c.toNat % 64) := by unfold isCont; omega
    rw [if_neg hk, if_pos hcont, if_pos rfl]
    have harith : (192 + c.toNat / 64 - 192) * 64 + (128 + c.toNat % 64 - 128) = c.toNat := by
      omega
    rw [harith, char_ofNat_toNat]
  rw [if_neg h2]
  by_cases h3 : c.toNat < 65536
  · rw [if_pos h3]
    simp only [List.cons_append, List.nil_append]
    rw [utf8DecodeAux]
    have hA : ¬(224 + c.toNat / 4096 < 128) := by omega
    have hB : ¬(224 + c.toNat / 4096 < 192) := by omega
    have hC : ¬(224 + c.toNat / 4096 < 224) := by omega
    have hD : 224 + c.toNat / 4096 < 240 := by omega
    rw [if_pos rfl, if_neg hA, if_neg hB, if_neg hC, if_pos hD]
    rw [utf8DecodeAux]
    have hk2 : (2 : Nat) ≠ 0 := by omega
    have hk2b : (2 : Nat) ≠ 1 := by omega
    have hcont1 : isCont (128 + c.toNat / 64 % 64) := by unfold isCont; omega
    rw [if_neg hk2, if_pos hcont1, if_neg hk2b]
    rw [utf8DecodeAux]
    have hk1 : (2 - 1 : Nat) ≠ 0 := by omega
    have hk1b : (2 - 1 : Nat) = 1 := by omega
    have hcont2 : isCont (128 + c.toNat % 64) := by unfold isCont; omega
    rw [if_neg hk1, if_pos hcont2, if_pos hk1b]
    have harith : ((224 + c.toNat / 4096 - 224) * 64 + (128 + c.toNat / 64 % 64 - 128)) * 64 +
        (128 + c.toNat % 64 - 128) = c.toNat := by omega
    rw [harith, char_ofNat_toNat]
  · rw [if_neg h3]
    simp only [List.cons_append, List.nil_append]
    rw [utf8DecodeAux]
    have hA : ¬(240 + c.toNat / 262144 < 128) := by omega
    have hB : ¬(240 + c.toNat / 262144 < 192) := by omega
    have hC : ¬(240 + c.toNat / 262144 < 224) := by omega
    have hD : ¬(240 + c.toNat / 262144 < 240) := by omega
    have hE : 240 + c.toNat / 262144 < 248 := by omega
    rw [if_pos rfl, if_neg hA, if_neg hB, if_neg hC, if_neg hD, if_pos hE]
    rw [utf8DecodeAux]
    have hk3 : (3 : Nat) ≠ 0 := by omega
    have hk3b : (3 : Nat) ≠ 1 := by omega
    have hcont1 : isCont (128 + c.toNat / 4096 % 64) := by unfold isCont; omega
    rw [if_neg hk3, if_pos hcont1, if_neg hk3b]
    rw [utf8DecodeAux]
    have hk2 : (3 - 1 : Nat) ≠ 0 := by omega
    have hk2b : (3 - 1 : Nat) ≠ 1 := by omega
    have hcont2 : isCont (128 + c.toNat / 64 % 64) := by unfold isCont; omega
    rw [if_neg hk2, if_pos hcont2, if_neg hk2b]
    rw [utf8DecodeAux]
    have hk1 : (3 - 1 - 1 : Nat) ≠ 0 := by omega
    have hk1b : (3 - 1 - 1 : Nat) = 1 := by omega
    have hcont3 : isCont (128 + c.toNat % 64) := by unfold isCont; omega
    rw [if_neg hk1, if_pos hcont3, if_pos hk1b]
    have harith : (((240 + c.toNat / 262144 - 240) * 64 + (128 + c.toNat / 4096 % 64 - 128)) *
        64 + (128 + c.toNat / 64 % 64 - 128)) * 64 + (128 + c.toNat % 64 - 128) = c.toNat := by
      omega
    rw [harith, char_ofNat_toNat]

/-- UTF-8 decoding inverts encoding. -/
theorem utf8Decode_encode (s : List Char) : utf8Decode (utf8Encode s) = some s := by
  rw [utf8Decode]
  induction s with
  | nil => rw [utf8Encode]; rfl
  | cons c s ih => rw [utf8Encode, utf8Decode_encodeChar, ih, consChar]

/-! ### Base64

Model of `Buffer.prototype.toString('base64')` and `Buffer.from(str,
'base64')` over byte lists: the RFC 4648 alphabet with `=` padding. -/

/-- The base64 alphabet character for a sextet value. -/
def b64Char (n : Nat) : Char :=
  if n < 26 then Char.ofNat (65 + n)
  else if n < 52 then Char.ofNat (97 + (n - 26))
  else if n < 62 then Char.ofNat (48 + (n - 52))
  else if n = 62 then '+'
  else '/'

/-- The sextet value of a base64 alphabet character, `none` otherwise. -/
def b64Val (c : Char) : Option Nat :=
  if 65 ≤ c.toNat ∧ c.toNat ≤ 90 then some (c.toNat - 65)
  else if 97 ≤ c.toNat ∧ c.toNat ≤ 122 then some (c.toNat - 97 + 26)
  else if 48 ≤ c.toNat ∧ c.toNat ≤ 57 then some (c.toNat - 48 + 52)
  else if c = '+' then some 62
  else if c = '/' then some 63
  else none

theorem b64Val_b64Char : ∀ n < 64, b64Val (b64Char n) = some n := by decide

theorem b64Char_ne_pad : ∀ n < 64, b64Char n ≠ '=' := by decide

/-- Base64 encoding of a byte list, three bytes to four characters, with
trailing padding. -/
def b64Encode : List Nat → List Char
  | [] => []
  | [x] => [b64Char (x / 4), b64Char (x % 4 * 16), '=', '=']
  | [x, y] => [b64Char (x / 4), b64Char (x % 4 * 16 + y / 16), b64Char (y % 16 * 4), '=']
  | x :: y :: z :: rest =>
    b64Char (x / 4) :: b64Char (x % 4 * 16 + y / 16) :: b64Char (y % 16 * 4 + z / 64) ::
      b64Char (z % 64) :: b64Encode rest
  termination_by structural l => l

/-- Base64 decoding of a character list, strict about alphabet, length and
padding. -/
def b64Decode : List Char → Option (List Nat)
  | [] => some []
  | c1 :: c2 :: c3 :: c4 :: rest =>
    (b64Val c1).bind fun a =>
      (b64Val c2).bind fun b =>
        if c3 = '=' then
          if c4 = '=' ∧ rest = [] ∧ b % 16 = 0 then some [a * 4 + b / 16] else none
        else
          (b64Val c3).bind fun c =>
            if c4 = '=' then
              if rest = [] ∧ c % 4 = 0 then some [a * 4 + b / 16, b % 16 * 16 + c / 4] else none
            else
              (b64Val c4).bind fun d =>
                (b64Decode rest).map fun tail =>
                  (a * 4 + b / 16) :: (b % 16 * 16 + c / 4) :: (c % 4 * 64 + d) :: tail
  | _ => none
  termination_by structural l => l

/-- Base64 decoding inverts encoding on byte lists. -/
theorem b64Decode_encode (l : List Nat) (h : ∀ b ∈ l, b < 256) :
    b64Decode (b64Encode l) = some l := by
  induction l using b64Encode.induct with
  | case1 => rfl
  | case2 x =>
    have hx : x < 256 := h x (by simp)
    have hv1 := b64Val_b64Char (x / 4) (by omega)
    have hv2 := b64Val_b64Char (x % 4 * 16) (by omega)
    rw [b64Encode]
    conv_lhs => rw [b64Decode.eq_def]
    simp only [hv1, hv2, Option.some_bind]
    have harith : x / 4 * 4 + x % 4 * 16 / 16 = x := by omega
    rw [if_pos True.intro,
      if_pos (⟨True.intro, True.intro, by omega⟩ : True ∧ True ∧ x % 4 * 16 % 16 = 0), harith]
  | case3 x y =>
    have hx : x < 256 := h x (by simp)
    have hy : y < 256 := h y (by simp)
    have hv1 := b64Val_b64Char (x / 4) (by omega)
    have hv2 := b64Val_b64Char (x % 4 * 16 + y / 16) (by omega)
    have hv3 := b64Val_b64Char (y % 16 * 4) (by omega)
    rw [b64Encode]
    conv_lhs => rw [b64Decode.eq_def]
    simp only [hv1, hv2, hv3, Option.some_bind]
    rw [if_neg (b64Char_ne_pad _ (by omega : y % 16 * 4 < 64))]
    have ha1 : x / 4 * 4 + (x % 4 * 16 + y / 16) / 16 = x := by omega
    have ha2 : (x % 4 * 16 + y / 16) % 16 * 16 + y % 16 * 4 / 4 = y := by omega
    rw [if_pos True.intro, if_pos (⟨True.intro, by omega⟩ : True ∧ y % 16 * 4 % 4 = 0), ha1, ha2]
  | case4 x y z rest ih =>
    have hx : x < 256 := h x (by simp)
    have hy : y < 256 := h y (by simp)
    have hz : z < 256 := h z (by simp)
    have htail : ∀ b ∈ rest, b < 256 := by
      intro b hbm
      exact h b (by simp [hbm])
    have hv1 := b64Val_b64Char (x / 4) (by omega)
    have hv2 := b64Val_b64Char (x % 4 * 16 + y / 16) (by omega)
    have hv3 := b64Val_b64Char (y % 16 * 4 + z / 64) (by omega)
    have hv4 := b64Val_b64Char (z % 64) (by omega)
    rw [b64Encode]
    conv_lhs => rw [b64Decode.eq_def]
    simp only [hv1, hv2, hv3, hv4, Option.some_bind]
    rw [if_neg (b64Char_ne_pad _ (by omega : y % 16 * 4 + z / 64 < 64))]
    rw [if_neg (b64Char_ne_pad _ (by omega : z % 64 < 64))]
    rw [ih htail]
    have ha1 : x / 4 * 4 + (x % 4 * 16 + y / 16) / 16 = x := by omega
    have ha2 : (x % 4 * 16 + y / 16) % 16 * 16 + (y % 16 * 4 + z / 64) / 4 = y := by omega
    have ha3 : (y % 16 * 4 + z / 64) % 4 * 64 + z % 64 = z := by omega
    simp only [Option.map_some', ha1, ha2, ha3]

/-! ### Cookie-header parsing and JS helpers

Model of `cookie.parse` (split on `;`, split each pair at the first `=`,
trim, strip surrounding double quotes, first occurrence of a key wins) and
of JS object/property semantics used by the code.  URI decoding of cookie
values is omitted: `cookie.serialize`/`cookie.parse` URI-encode and decode
the value as an inverse pair, and no claim observes the wire form. -/

/-- Split a character list on `;`, keeping empty segments. -/
def splitOnSemi : List Char → List (List Char)
  | [] => [[]]
  | c :: r =>
    let rest := splitOnSemi r
    if c = ';' then [] :: rest
    else
      match rest with
      | s :: ss => (c :: s) :: ss
      | [] => [[c]]

/-- Whitespace characters removed by `String.prototype.trim`. -/
def isWs (c : Char) : Bool :=
  c == ' ' || c == '\t' || c == '\n' || c == '\r'

/-- Trim whitespace from both ends. -/
def trimList (l : List Char) : List Char :=
  ((l.dropWhile isWs).reverse.dropWhile isWs).reverse

/-- Split a segment at its first `=`, or `none` when there is no `=`. -/
def splitFirstEq : List Char → Option (List Char × List Char)
  | [] => none
  | c :: r =>
    if c = '=' then some ([], r)
    else
      match splitFirstEq r with
      | some (k, v) => some (c :: k, v)
      | none => none

/-- Strip one layer of surrounding double quotes, as `cookie.parse` does
when the value starts with a quote. -/
def stripQuotes (l : List Char) : List Char :=
  match l with
  | '"' :: r => r.dropLast
  | _ => l

/-- Model of `cookie.parse` on a `Cookie` header string: the name/value
pairs in order of appearance. -/
def cookieParse (s : String) : List (String × String) :=
  (splitOnSemi s.data).filterMap fun seg =>
    match splitFirstEq seg with
    | none => none
    | some (k, v) => some (String.mk (trimList k), String.mk (stripQuotes (trimList v)))

/-- Lookup in the object `cookie.parse` builds: the first occurrence of a
key wins, later duplicates are ignored. -/
def cookieLookup : List (String × String) → String → Option String
  | [], _ => none
  | (k, v) :: rest, key => if k = key then some v else cookieLookup rest key

/-- Property access on an object built by `JSON.parse`: a duplicate key is
overwritten, so the last occurrence wins; a missing key is `undefined`. -/
def jsLookup : List (String × String) → String → Option String
  | [], _ => none
  | (k, v) :: rest, key =>
    match jsLookup rest key with
    | some v2 => some v2
    | none => if k = key then some v else none

/-- The characters `encodeURIComponent` leaves unescaped. -/
def isUriUnreserved (c : Char) : Bool :=
  (65 ≤ c.toNat && c.toNat ≤ 90) || (97 ≤ c.toNat && c.toNat ≤ 122) ||
    (48 ≤ c.toNat && c.toNat ≤ 57) ||
    (['-', '_', '.', '!', '~', '*', '\'', '(', ')'].contains c)

/-- Upper-case hexadecimal digit for a value below 16. -/
def hexDigitUpper (n : Nat) : Char :=
  if n < 10 then Char.ofNat (48 + n) else Char.ofNat (55 + n)

/-- Model of `encodeURIComponent`: unreserved characters verbatim, anything
else percent-encoded over its UTF-8 bytes. -/
def encodeURIComponent (s : String) : String :=
  String.mk (s.data.flatMap fun c =>
    if isUriUnreserved c then [c]
    else (utf8EncodeChar c).flatMap fun b => ['%', hexDigitUpper (b / 16), hexDigitUpper (b % 16)])

/-! ### Data model of `src/functions/AuthUtils.js` -/

/-- The failure modes of the handlers.  `malformedRequest` is the
`Error('Malformed event')` throw in `handleLogin`; `invalidRequest` is the
`Error('Invalid request')` throw in `handleCallback`; `jsonSyntaxError` is
a `SyntaxError` escaping `JSON.parse`; `typeError` is the `TypeError` of
`Buffer.from(undefined, 'base64')`; the provider errors are failures
propagated from the openid-client collaborator. -/
inductive AuthError where
  | malformedRequest
  | invalidRequest
  | jsonSyntaxError
  | typeError
  | providerVerificationError
  | providerNetworkError
deriving DecidableEq

/-- Environment-sourced configuration read by the module. -/
structure Env where
  crossidDomain : String
  crossidClientId : String
  url : String
  tokenSecret : String
  isRunningLocally : Bool
deriving DecidableEq

def NETLIFY_JWT_EXPIRATION_SECONDS : Nat := 14 * 24 * 3600

def LOGIN_COOKIE_MAX_AGE : Nat := 30 * 60 * 1000

def CROSSID_LOGIN_COOKIE_NAME : String := "crossid_login_cookie"

def NETLIFY_COOKIE_NAME : String := "nf_jwt"

/-- A value passed as the `maxAge` cookie option: the code passes either a
number or a `Date`.  `cookie.serialize` computes `opt.maxAge - 0`, which
for a `Date` is its millisecond timestamp. -/
inductive JsMaxAge where
  | num (n : Nat)
  | dateMs (ms : Nat)
deriving DecidableEq

/-- The number the cookie collaborator writes after `Max-Age=`, which
RFC 6265 interprets as seconds. -/
def JsMaxAge.toSeconds : JsMaxAge → Nat
  | .num n => n
  | .dateMs ms => ms

/-- Options accepted by `cookie.serialize` that the code uses. -/
structure CookieOpts where
  secure : Bool := false
  httpOnly : Bool := false
  path : Option String := none
  maxAge : Option JsMaxAge := none

/-- A serialized `Set-Cookie` header, at the attribute level of the cookie
collaborator interface.  `maxAgeSeconds` is the emitted `Max-Age`
attribute, an RFC 6265 seconds count. -/
structure SetCookie where
  name : String
  value : String
  secure : Bool
  httpOnly : Bool
  path : Option String
  maxAgeSeconds : Option Nat
deriving DecidableEq

/-- Model of `cookie.serialize name value opts`. -/
def cookieSerialize (name value : String) (o : CookieOpts) : SetCookie :=
  { name := name, value := value, secure := o.secure, httpOnly := o.httpOnly, path := o.path,
    maxAgeSeconds := o.maxAge.map JsMaxAge.toSeconds }

/-- The identity claims the code reads from the token set returned by the
provider: `aud`, `sub` and the `groups` membership list. -/
structure OidcClaims where
  aud : String
  sub : String
  groups : List String
deriving DecidableEq

/-- The payload of the Netlify session JWT built by `generateNetlifyJWT`. -/
structure NetlifyTokenPayload where
  exp : Nat
  iat : Nat
  updated_at : Nat
  aud : String
  sub : String
  roles : List String
deriving DecidableEq

/-- The token payload `generateNetlifyJWT` signs, given the current time in
milliseconds (`Date.now()`) and the provider claims. -/
def netlifyTokenPayload (now : Nat) (tokenData : OidcClaims) : NetlifyTokenPayload :=
  let iat := now / 1000
  let exp := iat + NETLIFY_JWT_EXPIRATION_SECONDS
  { exp := exp, iat := iat, updated_at := iat, aud := tokenData.aud, sub := tokenData.sub,
    roles := tokenData.groups }

/-- Model of `generateNetlifyJWT`: sign the payload with the JWT
collaborator (HS256, `typ: JWT`, keyed by the token secret). -/
def generateNetlifyJWT (sign : NetlifyTokenPayload → String) (now : Nat)
    (tokenData : OidcClaims) : String :=
  sign (netlifyTokenPayload now tokenData)

/-- Model of `generateCrossIdLoginCookie`: the flow correlation cookie
holding `JSON.stringify({nonce, state})`. -/
def generateCrossIdLoginCookie (env : Env) (nonce encodedStateStr : String) : SetCookie :=
  cookieSerialize CROSSID_LOGIN_COOKIE_NAME
    (String.mk (jsonStringifyObj2 "nonce" nonce "state" encodedStateStr))
    { secure := !env.isRunningLocally, path := some "/",
      maxAge := some (JsMaxAge.num LOGIN_COOKIE_MAX_AGE), httpOnly := true }

/-- JS `v || dflt` for a possibly-undefined string: `undefined` and the
empty string are falsy. -/
def jsStrOrDefault (v : Option String) (dflt : String) : String :=
  match v with
  | none => dflt
  | some s => if s = "" then dflt else s

/-- Model of `generateEncodedStateString`: base64 of the UTF-8 bytes of
`JSON.stringify({route: route || '/', nonce})`, with the inner nonce made
an explicit parameter (the source draws it from `generators.nonce()`). -/
def generateEncodedStateString (route : Option String) (stateNonce : String) : String :=
  String.mk (b64Encode (utf8Encode
    (jsonStringifyObj2 "route" (jsStrOrDefault route "/") "nonce" stateNonce)))

/-- Model of `generateCrossIdLoginResetCookie`: the cleared correlation
cookie; its `maxAge` option is `new Date(0)`. -/
def generateCrossIdLoginResetCookie (env : Env) : SetCookie :=
  cookieSerialize CROSSID_LOGIN_COOKIE_NAME ""
    { secure := !env.isRunningLocally, httpOnly := true, path := some "/",
      maxAge := some (JsMaxAge.dateMs 0) }

/-- Model of `generateLogoutCookie`: the cleared session cookie. -/
def generateLogoutCookie (env : Env) : SetCookie :=
  cookieSerialize NETLIFY_COOKIE_NAME ""
    { secure := !env.isRunningLocally, path := some "/", maxAge := some (JsMaxAge.dateMs 0),
      httpOnly := true }

/-- Model of `generateNetlifyCookieFromCrossIdToken`: the session cookie
carrying the signed Netlify JWT.  The source passes no `httpOnly` option,
so the cookie is not `httpOnly`. -/
def generateNetlifyCookieFromCrossIdToken (env : Env) (sign : NetlifyTokenPayload → String)
    (now : Nat) (tokenData : OidcClaims) : SetCookie :=
  cookieSerialize NETLIFY_COOKIE_NAME (generateNetlifyJWT sign now tokenData)
    { secure := !env.isRunningLocally, path := some "/",
      maxAge := some (JsMaxAge.num NETLIFY_JWT_EXPIRATION_SECONDS) }

/-- Model of `generateCrossIdLogoutUrl`. -/
def generateCrossIdLogoutUrl (env : Env) : String :=
  "https://" ++ env.crossidDomain ++ "/v2/logout" ++ "?returnTo=" ++
    encodeURIComponent env.url ++ "&client_id=" ++ env.crossidClientId

/-- The request headers the code reads. -/
structure ReqHeaders where
  cookie : Option String := none
  referer : Option String := none
  host : Option String := none
deriving DecidableEq

/-- An inbound handler event. -/
structure Event where
  headers : Option ReqHeaders := none
  body : Option String := none
deriving DecidableEq

/-- The parameters `handleLogin` passes to `client.authorizationUrl`. -/
structure AuthUrlParams where
  scope : String
  response_mode : String
  nonce : String
  state : String
deriving DecidableEq

/-- The request shape `handleCallback` hands to `client.callbackParams`. -/
structure OidcReq where
  method : String
  body : Option String
  url : Option String
deriving DecidableEq

/-- Callback parameters extracted by the provider client; opaque to this
code, carried through from the request body. -/
structure OidcParams where
  raw : Option String
deriving DecidableEq

/-- The `{nonce, state}` checks `handleCallback` passes to
`client.callback`. -/
structure OidcChecks where
  nonce : Option String
  state : Option String
deriving DecidableEq

/-- The openid-client collaborator, at the interface the code consumes.
`callback` is the provider-side verification and claim exchange; it must
fail on nonce/state/signature mismatch, and the code propagates whatever
it returns. -/
structure Client where
  authorizationUrl : AuthUrlParams → String
  callbackParams : OidcReq → OidcParams
  callback : String → OidcParams → OidcChecks → Except AuthError OidcClaims

/-- The awaited collaborators of one handler invocation: the result of
`Issuer.discover` plus client construction, and the JWT signer. -/
structure Collabs where
  discover : Except AuthError Client
  sign : NetlifyTokenPayload → String

/-- An HTTP response as the handlers build it: status, `Location`,
`Cache-Control`, and all `Set-Cookie` values (the login and logout
handlers set one via `headers`, the callback sets two via
`multiValueHeaders`). -/
structure Response where
  statusCode : Nat
  location : Option String
  cacheControl : Option String
  setCookies : List SetCookie
deriving DecidableEq

/-- Model of `handleLogin`.  The two fresh random values of a login
invocation, the OIDC `nonce` and the nonce inside the encoded state, are
explicit parameters. -/
def handleLogin (env : Env) (c : Collabs) (nonce stateNonce : String) (event : Option Event) :
    Except AuthError Response :=
  match event with
  | none => .error .malformedRequest
  | some ev =>
    match ev.headers with
    | none => .error .malformedRequest
    | some h =>
      match c.discover with
      | .error e => .error e
      | .ok client =>
        let state := generateEncodedStateString h.referer stateNonce
        let authRedirectURL := client.authorizationUrl
          { scope := "openid email profile", response_mode := "form_post", nonce := nonce,
            state := state }
        .ok { statusCode := 302, location := some authRedirectURL,
              cacheControl := some "no-cache",
              setCookies := [generateCrossIdLoginCookie env nonce state] }

/-- The decode of an encoded state string as `handleCallback` performs it:
`Buffer.from(state, 'base64')`, `toString('utf8')`, `JSON.parse`. -/
def decodeStateFields (st : String) : Option (List (String × String)) :=
  match b64Decode st.data with
  | none => none
  | some bytes =>
    match utf8Decode bytes with
    | none => none
    | some chars => jsonParseObj2 chars

/-- The `route` field of the decoded state object. -/
def decodeStateRoute (st : String) : Option String :=
  match decodeStateFields st with
  | none => none
  | some flds => jsLookup flds "route"

/-- Model of `handleCallback`.  A decode failure of the state (including
garbled base64, which `Buffer` itself tolerates but whose garbled text
then fails `JSON.parse`) surfaces as the JSON syntax error. -/
def handleCallback (env : Env) (c : Collabs) (now : Nat) (event : Option Event) :
    Except AuthError Response :=
  match event with
  | none => .error .invalidRequest
  | some ev =>
    match ev.headers with
    | none => .error .invalidRequest
    | some h =>
      match h.cookie with
      | none => .error .invalidRequest
      | some ck =>
        if ck = "" then .error .invalidRequest
        else
          match c.discover with
          | .error e => .error e
          | .ok client =>
            match cookieLookup (cookieParse ck) CROSSID_LOGIN_COOKIE_NAME with
            | none => .error .jsonSyntaxError
            | some lc =>
              match jsonParseObj2 lc.data with
              | none => .error .jsonSyntaxError
              | some flds =>
                let nonce := jsLookup flds "nonce"
                let state := jsLookup flds "state"
                let req : OidcReq := { method := "POST", body := ev.body, url := h.host }
                let params := client.callbackParams req
                match client.callback (env.url ++ "/.netlify/functions/callback") params
                    { nonce := nonce, state := state } with
                | .error e => .error e
                | .ok tokenClaims =>
                  let netlifyCookie :=
                    generateNetlifyCookieFromCrossIdToken env c.sign now tokenClaims
                  let crossidLoginCookie := generateCrossIdLoginResetCookie env
                  match state with
                  | none => .error .typeError
                  | some st =>
                    match decodeStateFields st with
                    | none => .error .jsonSyntaxError
                    | some decodedFlds =>
                      .ok { statusCode := 302,
                            location := jsLookup decodedFlds "route",
                            cacheControl := some "no-cache",
                            setCookies := [netlifyCookie, crossidLoginCookie] }

/-- Model of `handleLogout`.  The source function takes no parameters and
ignores the inbound request entirely; the ignored event parameter records
that the runtime passes one. -/
def handleLogout (env : Env) (_event : Option Event) : Response :=
  { statusCode := 302, location := some (generateCrossIdLogoutUrl env),
    cacheControl := some "no-cache", setCookies := [generateLogoutCookie env] }

/-! ### Shared lemmas about the encoded flow state -/

theorem string_data_mk (l : List Char) : (String.mk l).data = l := rfl

/-- Decoding a state produced by `generateEncodedStateString` recovers the
serialized object: the defaulted route and the inner nonce. -/
theorem decodeStateFields_encoded (r : Option String) (sn : String) :
    decodeStateFields (generateEncodedStateString r sn) =
      some [("route", jsStrOrDefault r "/"), ("nonce", sn)] := by
  simp only [decodeStateFields, generateEncodedStateString, string_data_mk]
  rw [b64Decode_encode _ (utf8Encode_lt _)]
  simp only [utf8Decode_encode, jsonParseObj2_stringify]

/-! ### The claims -/

/-- C1: for every route string `r` (and every inner nonce), base64-decoding
and JSON-parsing the encoded flow state produced by
`generateEncodedStateString`, as `handleCallback` does, yields an object
whose `route` field is `r` when `r` is non-empty and `"/"` otherwise. -/
theorem encoded_state_roundtrip_route (r sn : String) :
    decodeStateRoute (generateEncodedStateString (some r) sn) =
      some (if r = "" then "/" else r) := by
  simp only [decodeStateRoute, decodeStateFields_encoded]
  simp [jsLookup, jsStrOrDefault]

/-- C2: the payload signed by `generateNetlifyJWT` copies `aud` and `sub`
verbatim, maps `groups` to `app_metadata.authorization.roles`, sets
`updated_at = iat = floor(now / 1000)`, and has `exp - iat` exactly equal
to `14 * 24 * 3600`: no sliding expiration. -/
theorem netlify_jwt_payload_shape (sign : NetlifyTokenPayload → String) (now : Nat)
    (d : OidcClaims) :
    generateNetlifyJWT sign now d = sign (netlifyTokenPayload now d) ∧
    (netlifyTokenPayload now d).roles = d.groups ∧
    (netlifyTokenPayload now d).aud = d.aud ∧
    (netlifyTokenPayload now d).sub = d.sub ∧
    (netlifyTokenPayload now d).updated_at = (netlifyTokenPayload now d).iat ∧
    (netlifyTokenPayload now d).iat = now / 1000 ∧
    (netlifyTokenPayload now d).exp - (netlifyTokenPayload now d).iat = 14 * 24 * 3600 := by
  refine ⟨rfl, rfl, rfl, rfl, rfl, rfl, ?_⟩
  simp [netlifyTokenPayload, NETLIFY_JWT_EXPIRATION_SECONDS]

/-- C4: the flow correlation cookie is emitted with a `Max-Age` attribute
of 1800000.  `Max-Age` counts seconds (RFC 6265, and the cookie
collaborator's documented unit), so this is about 20.8 days, not the 30
minutes (1800 seconds) the specification requires: the source computes
`LOGIN_COOKIE_MAX_AGE = 30 * 60 * 1000` in milliseconds and passes it to a
seconds-denominated option. -/
theorem login_cookie_max_age_milliseconds_bug (env : Env) (nonce st : String) :
    (generateCrossIdLoginCookie env nonce st).maxAgeSeconds = some LOGIN_COOKIE_MAX_AGE ∧
    LOGIN_COOKIE_MAX_AGE = 1800000 ∧ (1800000 : Nat) ≠ 30 * 60 :=
  ⟨rfl, rfl, by decide⟩

/-- C6: `handleLogin` on an absent event or absent headers fails with the
malformed-request error and returns no response (so no redirect and no
cookie).  The statement quantifies over every collaborator record `c`,
including ones whose discovery fails: the outcome does not depend on the
provider discovery call, which is what it means for the failure to occur
before it. -/
theorem login_malformed_request (env : Env) (c : Collabs) (nonce sn : String)
    (b : Option String) :
    handleLogin env c nonce sn none = .error .malformedRequest ∧
    handleLogin env c nonce sn (some { headers := none, body := b }) =
      .error .malformedRequest :=
  ⟨rfl, rfl⟩

/-- C7: on a successful login, the `Location` is the collaborator's
authorization URL applied to parameters whose `nonce` and `state` are
exactly the values stored in the flow correlation cookie: the cookie value
is `JSON.stringify({nonce, state})`, and parsing it back yields the same
`nonce` and the same `state` embedded in the authorization URL request. -/
theorem login_cookie_nonce_state_match_auth_url (env : Env) (client : Client)
    (sg : NetlifyTokenPayload → String) (nonce sn : String) (h : ReqHeaders)
    (b : Option String) :
    handleLogin env { discover := .ok client, sign := sg } nonce sn
        (some { headers := some h, body := b }) =
      .ok { statusCode := 302,
            location := some (client.authorizationUrl
              { scope := "openid email profile", response_mode := "form_post",
                nonce := nonce, state := generateEncodedStateString h.referer sn }),
            cacheControl := some "no-cache",
            setCookies := [generateCrossIdLoginCookie env nonce
              (generateEncodedStateString h.referer sn)] } ∧
    (generateCrossIdLoginCookie env nonce (generateEncodedStateString h.referer sn)).value =
      String.mk (jsonStringifyObj2 "nonce" nonce "state"
        (generateEncodedStateString h.referer sn)) ∧
    jsonParseObj2 (jsonStringifyObj2 "nonce" nonce "state"
        (generateEncodedStateString h.referer sn)) =
      some [("nonce", nonce), ("state", generateEncodedStateString h.referer sn)] :=
  ⟨rfl, rfl, jsonParseObj2_stringify _ _ _ _⟩

/-- C9: `handleLogout`, whatever the inbound request (including none, and
whether or not any session cookie existed on it), returns a 302 whose
`Location` is the provider logout URL carrying the return-to URL and the
client identifier as query parameters, with exactly one `Set-Cookie`
clearing the session cookie with max-age 0. -/
theorem logout_response_shape (env : Env) (ev : Option Event) :
    handleLogout env ev =
      { statusCode := 302,
        location := some ("https://" ++ env.crossidDomain ++ "/v2/logout" ++ "?returnTo=" ++
          encodeURIComponent env.url ++ "&client_id=" ++ env.crossidClientId),
        cacheControl := some "no-cache",
        setCookies := [
          { name := NETLIFY_COOKIE_NAME,
            value := "",
            secure := !env.isRunningLocally,
            httpOnly := true,
            path := some "/",
            maxAgeSeconds := some 0 }] } :=
  rfl

/-- C10: every cookie the module serializes, the flow correlation cookie,
the correlation reset cookie, the logout cookie and the session cookie,
has path `/` and is marked secure exactly when the local-dev flag is not
set. -/
theorem all_cookies_path_and_secure (env : Env) (nonce st : String)
    (sg : NetlifyTokenPayload → String) (now : Nat) (claims : OidcClaims) :
    ((generateCrossIdLoginCookie env nonce st).path = some "/" ∧
      (generateCrossIdLoginCookie env nonce st).secure = !env.isRunningLocally) ∧
    ((generateCrossIdLoginResetCookie env).path = some "/" ∧
      (generateCrossIdLoginResetCookie env).secure = !env.isRunningLocally) ∧
    ((generateLogoutCookie env).path = some "/" ∧
      (generateLogoutCookie env).secure = !env.isRunningLocally) ∧
    ((generateNetlifyCookieFromCrossIdToken env sg now claims).path = some "/" ∧
      (generateNetlifyCookieFromCrossIdToken env sg now claims).secure =
        !env.isRunningLocally) :=
  ⟨⟨rfl, rfl⟩, ⟨rfl, rfl⟩, ⟨rfl, rfl⟩, ⟨rfl, rfl⟩⟩

/-! ### Concrete instances used by counterexamples and witnesses -/

def demoEnv : Env :=
  { crossidDomain := "idp.example", crossidClientId := "cid", url := "https://site.example",
    tokenSecret := "sec", isRunningLocally := false }

/-- A concrete provider client whose verification always succeeds. -/
def demoClient : Client :=
  { authorizationUrl := fun p => p.nonce ++ "|" ++ p.state,
    callbackParams := fun r => { raw := r.body },
    callback := fun _ _ _ => .ok { aud := "a", sub := "s", groups := ["g"] } }

def demoSign : NetlifyTokenPayload → String := fun _ => "tok"

def demoCollabs : Collabs := { discover := .ok demoClient, sign := demoSign }

/-- An event whose cookie header is present but holds no correlation
cookie. -/
def noCorrEvent : Event :=
  { headers := some { cookie := some "foo=bar", referer := none, host := none }, body := none }

/-- C3 counterexample: a callback request whose `Cookie` header is present
but lacks the correlation cookie does fail, but with the `SyntaxError` of
`JSON.parse(undefined)`, not with the `Error('Invalid request')` the claim
names. -/
theorem callback_missing_corr_cookie_wrong_error :
    handleCallback demoEnv demoCollabs 0 (some noCorrEvent) = .error .jsonSyntaxError ∧
    AuthError.jsonSyntaxError ≠ AuthError.invalidRequest :=
  ⟨rfl, by decide⟩

/-- C3 amended: a callback with an absent event, absent headers, or an
absent or empty `Cookie` header fails with `InvalidRequestError` and
produces no response (hence no redirect and no cookie); a callback whose
`Cookie` header is present but lacks the correlation cookie also fails
with no redirect and no cookie, but with the JSON parse error of
`JSON.parse(undefined)` (and only after provider discovery has
succeeded), not with `InvalidRequestError`. -/
theorem callback_missing_cookie_failures :
    (∀ (env : Env) (c : Collabs) (now : Nat) (b ref host : Option String),
      handleCallback env c now none = .error .invalidRequest ∧
      handleCallback env c now (some { headers := none, body := b }) =
        .error .invalidRequest ∧
      handleCallback env c now
          (some { headers := some { cookie := none, referer := ref, host := host },
                  body := b }) = .error .invalidRequest ∧
      handleCallback env c now
          (some { headers := some { cookie := some "", referer := ref, host := host },
                  body := b }) = .error .invalidRequest) ∧
    (∀ (env : Env) (client : Client) (sg : NetlifyTokenPayload → String) (now : Nat)
        (ck : String) (b ref host : Option String),
      ck ≠ "" →
      cookieLookup (cookieParse ck) CROSSID_LOGIN_COOKIE_NAME = none →
      handleCallback env { discover := .ok client, sign := sg } now
          (some { headers := some { cookie := some ck, referer := ref, host := host },
                  body := b }) = .error .jsonSyntaxError) := by
  constructor
  · intro env c now b ref host
    exact ⟨rfl, rfl, rfl, rfl⟩
  · intro env client sg now ck b ref host h1 h2
    simp only [handleCallback, if_neg h1, h2]

/-- Witness for the amended C3: a concrete cookie header without the
correlation cookie yields the JSON parse error. -/
theorem callback_missing_cookie_failures_witness :
    handleCallback demoEnv { discover := .ok demoClient, sign := demoSign } 0
        (some { headers := some { cookie := some "foo=bar", referer := none, host := none },
                body := none }) = .error .jsonSyntaxError :=
  callback_missing_cookie_failures.2 demoEnv demoClient demoSign 0 "foo=bar" none none none
    (by decide) rfl

/-- A crafted state whose decoded `route` is the empty string.  The login
encoder can never produce it (it defaults an empty route to `/`), but the
correlation cookie is client-held, so a callback can present it. -/
def craftedEmptyRouteState : String :=
  String.mk (b64Encode (utf8Encode (jsonStringifyObj2 "route" "" "nonce" "x")))

/-- A callback event carrying the crafted empty-route state in its
correlation cookie. -/
def craftedEmptyRouteEvent : Event :=
  { headers := some
      { cookie := some ("crossid_login_cookie=" ++
          String.mk (jsonStringifyObj2 "nonce" "n" "state" craftedEmptyRouteState)),
        referer := none, host := none },
    body := none }

/-- C5 counterexample: on a callback whose cookie-held state decodes to an
empty `route`, the handler redirects to `""`, not to `"/"`: the code
passes the decoded route through with no defaulting. -/
theorem callback_empty_route_location_not_defaulted :
    Except.map Response.location
        (handleCallback demoEnv demoCollabs 0 (some craftedEmptyRouteEvent)) =
      .ok (some "") ∧
    (some "" : Option String) ≠ some "/" :=
  ⟨rfl, by decide⟩

/-- C5 amended: the `/` default for an empty or absent route is applied
when the state is encoded at login time, not at the callback:
`generateEncodedStateString` maps an empty or absent route to `/`, so a
state the system itself produced from an empty or absent route decodes to
route `/`, and a successful callback carrying such a state redirects to
`/`.  The callback itself redirects to exactly the decoded route. -/
theorem callback_route_default_applied_at_encode :
    (∀ sn : String,
      decodeStateRoute (generateEncodedStateString none sn) = some "/" ∧
      decodeStateRoute (generateEncodedStateString (some "") sn) = some "/") ∧
    (∀ (env : Env) (client : Client) (sg : NetlifyTokenPayload → String) (now : Nat)
        (ck lc : String) (b ref host : Option String) (flds : List (String × String))
        (r : Option String) (sn : String) (resp : Response),
      ck ≠ "" →
      cookieLookup (cookieParse ck) CROSSID_LOGIN_COOKIE_NAME = some lc →
      jsonParseObj2 lc.data = some flds →
      jsLookup flds "state" = some (generateEncodedStateString r sn) →
      r = none ∨ r = some "" →
      handleCallback env { discover := .ok client, sign := sg } now
          (some { headers := some { cookie := some ck, referer := ref, host := host },
                  body := b }) = .ok resp →
      resp.location = some "/") := by
  constructor
  · intro sn
    constructor
    · simp only [decodeStateRoute, decodeStateFields_encoded]
      simp [jsLookup, jsStrOrDefault]
    · simp only [decodeStateRoute, decodeStateFields_encoded]
      simp [jsLookup, jsStrOrDefault]
  · intro env client sg now ck lc b ref host flds r sn resp h1 h2 h3 h4 h5 h6
    have hroute : jsStrOrDefault r "/" = "/" := by
      rcases h5 with rfl | rfl <;> rfl
    have hdec : decodeStateFields (generateEncodedStateString r sn) =
        some [("route", "/"), ("nonce", sn)] := by
      rw [decodeStateFields_encoded, hroute]
    simp only [handleCallback, if_neg h1, h2, h3, h4, hdec] at h6
    split at h6
    · simp at h6
    · injection h6 with h7
      rw [← h7]
      rfl

/-- The exact response of the witness run for the amended C5. -/
def defaultRouteResp : Response :=
  { statusCode := 302, location := some "/", cacheControl := some "no-cache",
    setCookies := [
      { name := "nf_jwt", value := "tok", secure := true, httpOnly := false,
        path := some "/", maxAgeSeconds := some 1209600 },
      { name := "crossid_login_cookie", value := "", secure := true, httpOnly := true,
        path := some "/", maxAgeSeconds := some 0 }] }

/-- The system-encoded state for an empty route, as the login handler
would produce for an empty referer. -/
def emptyRouteState : String := generateEncodedStateString (some "") "x"

/-- Witness for the amended C5: a concrete successful callback whose
cookie-held state was encoded from an empty route redirects to `/`. -/
theorem callback_route_default_applied_at_encode_witness :
    defaultRouteResp.location = some "/" :=
  callback_route_default_applied_at_encode.2 demoEnv demoClient demoSign 0
    ("crossid_login_cookie=" ++ String.mk (jsonStringifyObj2 "nonce" "n" "state" emptyRouteState))
    (String.mk (jsonStringifyObj2 "nonce" "n" "state" emptyRouteState)) none none none
    [("nonce", "n"), ("state", emptyRouteState)] (some "") "x" defaultRouteResp
    (by decide) rfl rfl rfl (Or.inr rfl) rfl

/-- C8: whenever the provider collaborator's verification succeeds on a
callback (and the cookie-held state decodes), the response is a 302 to the
route decoded from the original cookie-held state, with
`Cache-Control: no-cache` and exactly two `Set-Cookie` entries: the
session cookie (signed token value, path `/`, max-age equal to the session
lifetime constant, not marked httpOnly) and a cleared correlation cookie
with max-age 0. -/
theorem callback_success_response_contract (env : Env) (client : Client)
    (sg : NetlifyTokenPayload → String) (now : Nat) (ck lc st : String)
    (b ref host : Option String) (flds dflds : List (String × String))
    (claims : OidcClaims) :
    ck ≠ "" →
    cookieLookup (cookieParse ck) CROSSID_LOGIN_COOKIE_NAME = some lc →
    jsonParseObj2 lc.data = some flds →
    jsLookup flds "state" = some st →
    client.callback (env.url ++ "/.netlify/functions/callback")
        (client.callbackParams { method := "POST", body := b, url := host })
        { nonce := jsLookup flds "nonce", state := some st } = .ok claims →
    decodeStateFields st = some dflds →
    handleCallback env { discover := .ok client, sign := sg } now
        (some { headers := some { cookie := some ck, referer := ref, host := host },
                body := b }) =
      .ok { statusCode := 302,
            location := jsLookup dflds "route",
            cacheControl := some "no-cache",
            setCookies := [
              { name := NETLIFY_COOKIE_NAME,
                value := sg (netlifyTokenPayload now claims),
                secure := !env.isRunningLocally,
                httpOnly := false,
                path := some "/",
                maxAgeSeconds := some NETLIFY_JWT_EXPIRATION_SECONDS },
              { name := CROSSID_LOGIN_COOKIE_NAME,
                value := "",
                secure := !env.isRunningLocally,
                httpOnly := true,
                path := some "/",
                maxAgeSeconds := some 0 }] } := by
  intro h1 h2 h3 h4 h5 h6
  simp only [handleCallback, if_neg h1, h2, h3, h4, h5, h6]
  rfl

/-- A login-produced state for the dashboard route, fed back through the
witness callback. -/
def dashState : String := generateEncodedStateString (some "/dash") "x"

/-- Witness for C8: a concrete successful callback produces the full
contract response. -/
theorem callback_success_response_contract_witness :
    handleCallback demoEnv { discover := .ok demoClient, sign := demoSign } 1700000000000
        (some { headers := some
                  { cookie := some ("crossid_login_cookie=" ++
                      String.mk (jsonStringifyObj2 "nonce" "n" "state" dashState)),
                    referer := none, host := none },
                body := none }) =
      .ok { statusCode := 302,
            location := jsLookup [("route", "/dash"), ("nonce", "x")] "route",
            cacheControl := some "no-cache",
            setCookies := [
              { name := NETLIFY_COOKIE_NAME,
                value := demoSign (netlifyTokenPayload 1700000000000
                  { aud := "a", sub := "s", groups := ["g"] }),
                secure := !demoEnv.isRunningLocally,
                httpOnly := false,
                path := some "/",
                maxAgeSeconds := some NETLIFY_JWT_EXPIRATION_SECONDS },
              { name := CROSSID_LOGIN_COOKIE_NAME,
                value := "",
                secure := !demoEnv.isRunningLocally,
                httpOnly := true,
                path := some "/",
                maxAgeSeconds := some 0 }] } :=
  callback_success_response_contract demoEnv demoClient demoSign 1700000000000
    ("crossid_login_cookie=" ++ String.mk (jsonStringifyObj2 "nonce" "n" "state" dashState))
    (String.mk (jsonStringifyObj2 "nonce" "n" "state" dashState)) dashState none none none
    [("nonce", "n"), ("state", dashState)] [("route", "/dash"), ("nonce", "x")]
    { aud := "a", sub := "s", groups := ["g"] }
    (by decide) rfl rfl rfl rfl rfl

end CrossidAuth
